import Mathlib

/-!
Verification development for the Aadhaar Service Stress API backend
(`backend/main.py`).

The backend is a set of stateless HTTP handlers over a single in-memory
pandas dataframe `df` loaded at startup.  We embed the dataframe as a
`List Row` whose fields are `Option`-valued (pandas columns are nullable:
a missing cell is `NaN`), model Python floats by `ℚ`, and model calendar
dates by a `Nat` day index (the `date` column is parsed by
`pd.to_datetime` at load time; a query-supplied date string is parsed by
a fallible `parseDate`, mirroring the fact that `pd.to_datetime` raises
on malformed input).

Pandas semantics embedded here:
* a comparison `column == value` or `column < value` is `False` on a
  null (`NaN`) cell;
* `groupby(key)` sorts the group keys ascending and drops null keys;
* `mean()` ignores null cells, and is null when every cell of the group
  is null;
* `sort_values(ascending=False)` performs a stable *ascending* argsort
  of the non-null entries, reverses it, and appends the null entries at
  the end (`na_position="last")` — so tied entries appear in *reverse*
  of their input order;
* Python `round(x, ndigits)` rounds half to even.

String prose that the handlers interpolate into their responses is kept
where a claim depends on it (verdict descriptions, fault prefixes); the
long literal policy paragraphs are represented by their `(priority,
title)` headers, which identify each block uniquely.
-/

/-- One row of `aadhaar_merged_dataset.csv` after loading: every column
of a pandas dataframe is nullable, so each field is `Option`-valued;
the `date` column is a parsed day index. -/
structure Row where
  state : Option String
  district : Option String
  date : Nat
  service_stress_risk : Option ℚ
  biometric_to_enrolment_ratio : Option ℚ
  child_update_pressure : Option ℚ
  elderly_update_pressure : Option ℚ
deriving DecidableEq, Repr

/-- The dataframe filter `(df["state"] == state) & (df["district"] == district)`:
a null cell never equals a supplied string. -/
def matchesKey (state district : String) (r : Row) : Bool :=
  r.state == some state && r.district == some district

/-- Models `pd.to_datetime(s)` on a query-supplied date string: succeeds
exactly on well-formed input (here: a day index in decimal), raises —
i.e. returns `Except.error` — otherwise. -/
def parseDate (s : String) : Except String Nat :=
  match s.toNat? with
  | some n => Except.ok n
  | none => Except.error ("could not parse date: " ++ s)

/-- Round a rational to the nearest integer, ties to even: the rounding
used by Python `round`. -/
def roundHalfEven (q : ℚ) : ℤ :=
  let f : ℤ := q.floor
  if q - f < 1/2 then f
  else if 1/2 < q - f then f + 1
  else if f % 2 = 0 then f else f + 1

/-- Python `round(q, 1)`. -/
def round1 (q : ℚ) : ℚ := (roundHalfEven (10 * q) : ℚ) / 10

/-- Python `round(q, 4)`. -/
def round4 (q : ℚ) : ℚ := (roundHalfEven (10000 * q) : ℚ) / 10000

/-- The f-string formatting `f"{q:.1f}"` (Python formats floats with
round-half-even as well); only ever applied to nonnegative values here. -/
def fmt1 (q : ℚ) : String :=
  let n := roundHalfEven (10 * q)
  toString (n / 10) ++ "." ++ toString (n % 10)

/-- Response of `/risk-verdict/{risk_score}`. -/
structure Verdict where
  verdict : String
  description : String
deriving DecidableEq, Repr

/-- Embeds `get_risk_verdict` (`main.py` lines 90–98): classify a risk score as
LOW / MEDIUM / HIGH by fixed thresholds. -/
def get_risk_verdict (risk_score : ℚ) : Verdict :=
  if risk_score < 0.01 then
    ⟨"LOW", "Minimal service stress - operations running smoothly"⟩
  else if risk_score < 0.03 then
    ⟨"MEDIUM", "Moderate service stress - requires monitoring"⟩
  else
    ⟨"HIGH", "High service stress - immediate attention needed"⟩

/-- Response of `/risk-percentile/{state}/{district}/{date}`. -/
structure PctPayload where
  percentile : ℚ
  comparison : String
deriving DecidableEq, Repr

/-- The dataframe filter `df[df["date"].dt.date == date_obj]`: all rows on
the queried date, across all geographies. -/
def dateRows (t : List Row) (dateObj : Nat) : List Row :=
  t.filter (fun r => r.date == dateObj)

/-- The boolean series `row["service_stress_risk"] < x`: `False` on a
null cell. -/
def riskLtB (x : ℚ) (r : Row) : Bool :=
  match r.service_stress_risk with
  | some v => decide (v < x)
  | none => false

/-- Counts `(date_data["service_stress_risk"] < current_risk).sum()`: the number
of rows of the pool whose risk score is non-null and strictly below `x`. -/
def strictlyLowerCount (pool : List Row) (x : ℚ) : Nat :=
  (pool.filter (riskLtB x)).length

/-- The unrounded value of the local variable `percentile` in
`get_risk_percentile` (`main.py` line 122). -/
def percentileRaw (pool : List Row) (x : ℚ) : ℚ :=
  (strictlyLowerCount pool x : ℚ) / (pool.length : ℚ) * 100

/-- Embeds `get_risk_percentile` (`main.py` lines 100–126).  The date string is
parsed outside any `try`, so a parse failure propagates as an uncaught
exception (`Except.error`). -/
def get_risk_percentile (t : List Row) (state district dateStr : String) :
    Except String PctPayload := do
  let dateObj ← parseDate dateStr
  let dateData := dateRows t dateObj
  if dateData.isEmpty then
    return ⟨0, "No data available"⟩
  match (t.filter (fun r => matchesKey state district r && r.date == dateObj)).head? with
  | none => return ⟨0, "No data for this district"⟩
  | some row =>
    match row.service_stress_risk with
    | none => return ⟨0, "No data"⟩
    | some currentRisk =>
      return ⟨round1 (percentileRaw dateData currentRisk),
        "Riskier than " ++ fmt1 (percentileRaw dateData currentRisk) ++ "% of districts"⟩

/-- A two-row table in which the queried row of district `D` is tied with
district `E` for the maximum risk score on date 7. -/
def tC2tie : List Row :=
  [⟨some "S", some "D", 7, some 0.5, none, none, none⟩,
   ⟨some "S", some "E", 7, some 0.5, none, none, none⟩]

/-- The queried row of the table `tC2`. -/
def rowC2 : Row := ⟨some "S", some "D", 7, some 0.5, none, none, none⟩

/-- A four-row table in which the queried row of district `D` has the
strict maximum risk score on date 7. -/
def tC2 : List Row :=
  [rowC2,
   ⟨some "A", some "B", 7, some 0.1, none, none, none⟩,
   ⟨some "A", some "C", 7, some 0.2, none, none, none⟩,
   ⟨some "A", some "E", 7, some 0.3, none, none, none⟩]

/-- A row of the table `tC9`, keyed (S, D, date 7), with the given risk
score. -/
def c9row (q : Option ℚ) : Row := ⟨some "S", some "D", 7, q, none, none, none⟩

/-- A 4001-row table for date 7: the queried first row has risk score 1,
one row has a null score, and 3999 rows have score 0. -/
def tC9 : List Row :=
  c9row (some 1) :: c9row none :: List.replicate 3999 (c9row (some 0))

/-- The queried row of the table `tC9w`. -/
def rowC9 : Row := ⟨some "S", some "D", 7, some (3/10), none, none, none⟩

/-- The null-score row of the table `tC9w`. -/
def nullRowC9 : Row := ⟨some "A", some "B", 7, none, none, none, none⟩

/-- A four-row table for date 7 holding the queried row (score 0.3), a
null-score row and two strictly lower rows. -/
def tC9w : List Row :=
  [rowC9, nullRowC9,
   ⟨some "A", some "C", 7, some (1/10), none, none, none⟩,
   ⟨some "A", some "E", 7, some (2/10), none, none, none⟩]

/-- One recommendation block of `get_policy_recommendation`: its priority
tag and title (the long literal prose description attached to each block
is constant per title and elided). -/
structure RecBlock where
  priority : String
  title : String
deriving DecidableEq, Repr

/-- The `recommendations` list built by `get_policy_recommendation`
(`main.py` lines 194–258): appends for bio_ratio, child and elderly
pressure; the risk block is inserted at position 0; a default block when
nothing fired. -/
def recommendationBlocks (risk_score bio_ratio child_pressure elderly_pressure : ℚ) :
    List RecBlock :=
  let recs : List RecBlock := []
  let recs := if bio_ratio > 8 then
      recs ++ [⟨"HIGH", "Infrastructure Capacity Enhancement"⟩]
    else if bio_ratio > 5 then
      recs ++ [⟨"MEDIUM", "Staffing and Resource Optimization"⟩]
    else recs
  let recs := if child_pressure > 0.01 then
      recs ++ [⟨"MEDIUM", "Specialized Child Services Centers"⟩]
    else if child_pressure > 0.005 then
      recs ++ [⟨"LOW", "Child Services Enhancement"⟩]
    else recs
  let recs := if elderly_pressure > 0.01 then
      recs ++ [⟨"MEDIUM", "Elderly-Focused Service Centers"⟩]
    else if elderly_pressure > 0.005 then
      recs ++ [⟨"LOW", "Elderly Services Improvement"⟩]
    else recs
  let recs := if risk_score > 0.04 then
      ⟨"CRITICAL", "Emergency Service Review"⟩ :: recs
    else if risk_score > 0.025 then
      ⟨"HIGH", "Service Load Balancing"⟩ :: recs
    else recs
  if recs.isEmpty then [⟨"INFORMATIONAL", "Maintain Current Standards"⟩] else recs

/-- The `recommendation` value of the response of
`/policy-recommendation/...`: either the "No data available for
recommendation" case, the formatted block report, or the fault text of
the `except` clause. -/
inductive RecText where
  | noData : RecText
  | report : List RecBlock → RecText
  | fault : String → RecText
deriving DecidableEq, Repr

/-- The body of the `try` in `get_policy_recommendation` (`main.py` lines
175–267): parse the date (can raise), look up the row, coerce null fields
to 0, build the blocks. -/
def recBody (t : List Row) (state district dateStr : String) : Except String RecText := do
  let dateObj ← parseDate dateStr
  match (t.filter (fun r => matchesKey state district r && r.date == dateObj)).head? with
  | none => return RecText.noData
  | some r =>
    return RecText.report (recommendationBlocks
      (r.service_stress_risk.getD 0)
      (r.biometric_to_enrolment_ratio.getD 0)
      (r.child_update_pressure.getD 0)
      (r.elderly_update_pressure.getD 0))

/-- Embeds `get_policy_recommendation` (`main.py` lines 172–269): the whole body
runs inside `try ... except`, converting any raised exception into a
normal text payload, so the handler itself never raises (is always
`Except.ok`). -/
def get_policy_recommendation (t : List Row) (state district dateStr : String) :
    Except String RecText :=
  Except.ok (match recBody t state district dateStr with
    | Except.ok v => v
    | Except.error e => RecText.fault ("Unable to generate recommendation: " ++ e))

/-- The narrative band indices chosen by `get_risk_explanation` (`main.py`
lines 293–331): risk bands `<0.001 / <0.01 / <0.03 / else`, bio_ratio
bands `<2 / <5 / <10 / else`, child and elderly bands
`<0.001 / <0.01 / else`; each band selects one fixed paragraph. -/
structure ExpReport where
  riskBand : Nat
  bioBand : Nat
  childBand : Nat
  elderlyBand : Nat
deriving DecidableEq, Repr

/-- The band selection of `get_risk_explanation` as a function of the four
coerced numeric fields. -/
def explanationBands (risk_score bio_ratio child_pressure elderly_pressure : ℚ) :
    ExpReport :=
  ⟨if risk_score < 0.001 then 0 else if risk_score < 0.01 then 1
      else if risk_score < 0.03 then 2 else 3,
   if bio_ratio < 2 then 0 else if bio_ratio < 5 then 1
      else if bio_ratio < 10 then 2 else 3,
   if child_pressure < 0.001 then 0 else if child_pressure < 0.01 then 1 else 2,
   if elderly_pressure < 0.001 then 0 else if elderly_pressure < 0.01 then 1 else 2⟩

/-- The `explanation` value of the response of `/risk-explanation/...`. -/
inductive ExpText where
  | noData : ExpText
  | report : ExpReport → ExpText
  | fault : String → ExpText
deriving DecidableEq, Repr

/-- The body of the `try` in `get_risk_explanation` (`main.py` lines
275–335). -/
def expBody (t : List Row) (state district dateStr : String) : Except String ExpText := do
  let dateObj ← parseDate dateStr
  match (t.filter (fun r => matchesKey state district r && r.date == dateObj)).head? with
  | none => return ExpText.noData
  | some r =>
    return ExpText.report (explanationBands
      (r.service_stress_risk.getD 0)
      (r.biometric_to_enrolment_ratio.getD 0)
      (r.child_update_pressure.getD 0)
      (r.elderly_update_pressure.getD 0))

/-- Embeds `get_risk_explanation` (`main.py` lines 271–337): body inside
`try ... except`, faults converted to a text payload. -/
def get_risk_explanation (t : List Row) (state district dateStr : String) :
    Except String ExpText :=
  Except.ok (match expBody t state district dateStr with
    | Except.ok v => v
    | Except.error e => ExpText.fault ("Unable to generate explanation: " ++ e))

/-- The single-row table for the C5 witness: bio_ratio 9, risk_score 0.05. -/
def tC5 : List Row := [⟨some "S", some "D", 7, some 0.05, some 9, none, none⟩]

/-- Ascending comparison of rows by date: the key of
`sort_values("date")`. -/
def dateLe (a b : Row) : Prop := a.date ≤ b.date

instance : DecidableRel dateLe := fun a b => Nat.decLe a.date b.date

instance : IsTotal Row dateLe := ⟨fun a b => Nat.le_total a.date b.date⟩

instance : IsTrans Row dateLe := ⟨fun _ _ _ hab hbc => Nat.le_trans hab hbc⟩

/-- Response of `/risk-trend/{state}/{district}`: the error payload or the
list of (date, nullable risk score) points. -/
inductive TrendResult where
  | err : TrendResult
  | data : List (Nat × Option ℚ) → TrendResult
deriving DecidableEq, Repr

/-- Embeds `get_risk_trend` (`main.py` lines 152–170): filter by exact (state,
district), sort ascending by date (pandas ascending sorts are stable for
the group sizes we model), emit one point per row with the null score
passed through. -/
def get_risk_trend (t : List Row) (state district : String) : TrendResult :=
  let data := (t.filter (matchesKey state district)).insertionSort dateLe
  if data.isEmpty then TrendResult.err
  else TrendResult.data (data.map (fun r => (r.date, r.service_stress_risk)))

/-- A table with three matching rows for (S, D) — duplicate date 7, one
null score, dates out of order — plus one non-matching row. -/
def tC10 : List Row :=
  [⟨some "S", some "D", 9, some (1/10), none, none, none⟩,
   ⟨some "S", some "D", 7, none, none, none, none⟩,
   ⟨some "S", some "D", 7, some (2/10), none, none, none⟩,
   ⟨some "X", some "Y", 8, some (3/10), none, none, none⟩]

/-- The group keys of `df.groupby("district")`: pandas sorts the keys
ascending and drops null keys. -/
def districtKeys (t : List Row) : List String :=
  ((t.filterMap Row.district).dedup).insertionSort (· ≤ ·)

/-- The rows of the group with key `d` under `groupby("district")`. -/
def districtRows (t : List Row) (d : String) : List Row :=
  t.filter (fun r => r.district == some d)

/-- The pandas `mean()` of one numeric column over a group: null cells are
ignored; the mean of an all-null (or empty) column is null (`NaN`). -/
def meanOf (proj : Row → Option ℚ) (rows : List Row) : Option ℚ :=
  let vals := rows.filterMap proj
  if vals.isEmpty then none else some (vals.sum / (vals.length : ℚ))

/-- Computes `groupby("district")["service_stress_risk"].mean()`: one (district,
mean) entry per group key, in key order. -/
def groupedMeans (t : List Row) : List (String × Option ℚ) :=
  (districtKeys t).map (fun d => (d, meanOf Row.service_stress_risk (districtRows t d)))

/-- The ascending comparison that pandas `sort_values` applies to the
non-null entries, keyed by `key` (on the non-null sublist the default 0
of `getD` is never consulted). -/
def keyAscLe {α : Type} (key : α → Option ℚ) (a b : α) : Prop :=
  (key a).getD 0 ≤ (key b).getD 0

instance {α : Type} (key : α → Option ℚ) : DecidableRel (keyAscLe key) :=
  fun a b => inferInstanceAs (Decidable ((key a).getD 0 ≤ (key b).getD 0))

instance {α : Type} (key : α → Option ℚ) : IsTotal α (keyAscLe key) :=
  ⟨fun _ _ => le_total _ _⟩

instance {α : Type} (key : α → Option ℚ) : IsTrans α (keyAscLe key) :=
  ⟨fun _ _ _ hab hbc => le_trans hab hbc⟩

/-- pandas `sort_values(ascending=False, na_position="last")` (the exact
`nargsort` semantics): stable ascending argsort of the non-null entries,
reversed, with the null entries appended at the end.  In particular tied
entries appear in reverse of their input order. -/
def sortValuesDesc {α : Type} (key : α → Option ℚ) (l : List α) : List α :=
  ((l.filter (fun a => (key a).isSome)).insertionSort (keyAscLe key)).reverse ++
    l.filter (fun a => (key a).isNone)

/-- Descending order on nullable sort keys, nulls last. -/
def optDescGe : Option ℚ → Option ℚ → Prop
  | _, none => True
  | none, some _ => False
  | some x, some y => y ≤ x

instance optDescGe.instDecidable (a b : Option ℚ) : Decidable (optDescGe a b) :=
  match a, b with
  | some _, none => isTrue trivial
  | none, none => isTrue trivial
  | none, some _ => isFalse (fun h => h)
  | some x, some y => inferInstanceAs (Decidable (y ≤ x))

/-- Embeds `get_top_districts` (`main.py` lines 128–136): group by district, take
the mean risk score, sort descending, keep the first `limit` entries and
round each average to 4 decimals. -/
def get_top_districts (t : List Row) (limit : Nat) : List (String × Option ℚ) :=
  ((sortValuesDesc Prod.snd (groupedMeans t)).take limit).map
    (fun p => (p.1, p.2.map round4))

/-- The default `limit: int = 10` of `get_top_districts`. -/
def get_top_districts_default (t : List Row) : List (String × Option ℚ) :=
  get_top_districts t 10

/-- Embeds `get_district_hotspots` (`main.py` lines 138–150): as
`get_top_districts` but restricted to one state, default limit 5, empty
state slice short-circuits to an empty list. -/
def get_district_hotspots (t : List Row) (state : String) (limit : Nat) :
    List (String × Option ℚ) :=
  let state_data := t.filter (fun r => r.state == some state)
  if state_data.isEmpty then []
  else
    ((sortValuesDesc Prod.snd (groupedMeans state_data)).take limit).map
      (fun p => (p.1, p.2.map round4))

/-- One row of the `ranked_df` frame of `download_ranked_data`: the
district key and the four per-group means. -/
structure RankedRow where
  district : String
  service_stress_risk : Option ℚ
  biometric_to_enrolment_ratio : Option ℚ
  child_update_pressure : Option ℚ
  elderly_update_pressure : Option ℚ
deriving DecidableEq, Repr

/-- The aggregate row of one district group under
`groupby("district").agg({... "mean" ...})`. -/
def rankedRowOf (t : List Row) (d : String) : RankedRow :=
  ⟨d, meanOf Row.service_stress_risk (districtRows t d),
     meanOf Row.biometric_to_enrolment_ratio (districtRows t d),
     meanOf Row.child_update_pressure (districtRows t d),
     meanOf Row.elderly_update_pressure (districtRows t d)⟩

/-- The `ranked_df` frame of `download_ranked_data` (`main.py` lines
356–366): group, aggregate the four means, sort descending by mean risk
score. -/
def rankedRows (t : List Row) : List RankedRow :=
  sortValuesDesc RankedRow.service_stress_risk ((districtKeys t).map (rankedRowOf t))

/-- The `HTTPException` classes raised by `download_ranked_data`. -/
inductive HttpError where
  | e400 : String → HttpError
  | e500 : String → HttpError
deriving DecidableEq, Repr

/-- Embeds `download_ranked_data` (`main.py` lines 349–388): 400 if the table is
empty, 400 if the grouped frame is empty, otherwise the CSV attachment
(serialization of the frame to delimited text is modeled by the row list
itself; the `except` clause that raises 500 guards only serialization,
which cannot fail in the modeled semantics). -/
def download_ranked_data (t : List Row) : Except HttpError (List RankedRow) :=
  if t.isEmpty then Except.error (HttpError.e400 "Dataset is empty")
  else
    let ranked := rankedRows t
    if ranked.isEmpty then Except.error (HttpError.e400 "No ranked data available")
    else Except.ok ranked

/-- Embeds `get_states` (`main.py` lines 47–49): sorted distinct states (the
non-null values of the column). -/
def get_states (t : List Row) : List String :=
  ((t.filterMap Row.state).dedup).insertionSort (· ≤ ·)

/-- Embeds `get_districts` (`main.py` lines 51–53): sorted distinct districts of
one state. -/
def get_districts (t : List Row) (state : String) : List String :=
  (((t.filter (fun r => r.state == some state)).filterMap Row.district).dedup).insertionSort
    (· ≤ ·)

/-- Embeds `get_dates` (`main.py` lines 55–63): sorted distinct dates of one
(state, district) pair. -/
def get_dates (t : List Row) (state district : String) : List Nat :=
  (((t.filter (matchesKey state district)).map Row.date).dedup).insertionSort (· ≤ ·)

/-- The four nullable numeric fields returned by `/risk`. -/
structure RiskPayload where
  risk_score : Option ℚ
  bio_ratio : Option ℚ
  child_pressure : Option ℚ
  elderly_pressure : Option ℚ
deriving DecidableEq, Repr

/-- Result of `/risk`: the explanatory error payload or the fields. -/
inductive RiskResult where
  | err : RiskResult
  | found : RiskPayload → RiskResult
deriving DecidableEq, Repr

/-- Embeds `get_risk` (`main.py` lines 65–88): exact-triple lookup, first match
used, NaN fields converted to null by `safe_float`; the date parse is
outside any `try`. -/
def get_risk (t : List Row) (state district dateStr : String) :
    Except String RiskResult := do
  let dateObj ← parseDate dateStr
  match (t.filter (fun r => matchesKey state district r && r.date == dateObj)).head? with
  | none => return RiskResult.err
  | some r =>
    return RiskResult.found ⟨r.service_stress_risk, r.biometric_to_enrolment_ratio,
      r.child_update_pressure, r.elderly_update_pressure⟩

/-- The constant payload of `/model-stats` (`main.py` lines 339–347). -/
structure ModelStats where
  mae : ℚ
  rmse : ℚ
  spearman : ℚ
  stability : ℚ
deriving DecidableEq, Repr

/-- Embeds `get_model_stats`: fixed literals, not computed from the table. -/
def get_model_stats : ModelStats := ⟨0.0001, 0.0003, 0.999, 100.0⟩

/-- One request to an exposed endpoint of the app. -/
inductive Request where
  | root
  | states
  | districts (state : String)
  | dates (state district : String)
  | risk (state district dateStr : String)
  | verdict (risk_score : ℚ)
  | percentile (state district dateStr : String)
  | top (limit : Nat)
  | hotspots (state : String) (limit : Nat)
  | trend (state district : String)
  | recommendation (state district dateStr : String)
  | explanation (state district dateStr : String)
  | modelStats
  | download

/-- One response of an exposed endpoint. -/
inductive Response where
  | static
  | states (l : List String)
  | districts (l : List String)
  | dates (l : List Nat)
  | risk (r : Except String RiskResult)
  | verdict (v : Verdict)
  | percentile (p : Except String PctPayload)
  | top (l : List (String × Option ℚ))
  | hotspots (l : List (String × Option ℚ))
  | trend (tr : TrendResult)
  | recommendation (r : Except String RecText)
  | explanation (e : Except String ExpText)
  | modelStats (m : ModelStats)
  | download (d : Except HttpError (List RankedRow))

/-- The full request dispatch over the process state.  The process state
is exactly the module-level dataframe `df` loaded at startup; `main.py`
contains no assignment to `df` after load, and every pandas operation the
handlers use (boolean filtering, `groupby`, `mean`, `sort_values`,
`head`, `iterrows`, `to_csv`) returns a new object, so each handler pairs
its response with the unchanged table. -/
def handle (t : List Row) (req : Request) : List Row × Response :=
  match req with
  | .root => (t, .static)
  | .states => (t, .states (get_states t))
  | .districts state => (t, .districts (get_districts t state))
  | .dates state district => (t, .dates (get_dates t state district))
  | .risk state district dateStr => (t, .risk (get_risk t state district dateStr))
  | .verdict x => (t, .verdict (get_risk_verdict x))
  | .percentile state district dateStr =>
      (t, .percentile (get_risk_percentile t state district dateStr))
  | .top limit => (t, .top (get_top_districts t limit))
  | .hotspots state limit => (t, .hotspots (get_district_hotspots t state limit))
  | .trend state district => (t, .trend (get_risk_trend t state district))
  | .recommendation state district dateStr =>
      (t, .recommendation (get_policy_recommendation t state district dateStr))
  | .explanation state district dateStr =>
      (t, .explanation (get_risk_explanation t state district dateStr))
  | .modelStats => (t, .modelStats get_model_stats)
  | .download => (t, .download (download_ranked_data t))

/-- The one-row table whose single district key is null: `groupby` drops
null keys, so the grouped frame is empty while the table is not. -/
def tC3 : List Row := [⟨some "S", none, 7, some 1, none, none, none⟩]

/-- A two-district table (means 0.1 for A, 0.3 for B) on which
`download_ranked_data` succeeds. -/
def tC8 : List Row :=
  [⟨some "S", some "A", 7, some (1/10), none, none, none⟩,
   ⟨some "S", some "B", 7, some (3/10), none, none, none⟩]

/-- A two-district table with equal average risk scores: groupby order is
["A", "B"], and the descending sort emits the tie in reverse of that
order. -/
def tC4tie : List Row :=
  [⟨some "S", some "A", 1, some 1, none, none, none⟩,
   ⟨some "S", some "B", 2, some 1, none, none, none⟩]

/-- A three-district table with distinct averages for the C4 witness. -/
def tC4w : List Row :=
  [⟨some "S", some "A", 1, some (1/10), none, none, none⟩,
   ⟨some "S", some "B", 1, some (3/10), none, none, none⟩,
   ⟨some "S", some "C", 1, some (2/10), none, none, none⟩,
   ⟨some "S", some "B", 2, some (5/10), none, none, none⟩]

/-- Splitting a pool into the rows counted by `strictlyLowerCount` and the
rest. -/
theorem strictlyLowerCount_add_not (pool : List Row) (x : ℚ) :
    strictlyLowerCount pool x + (pool.filter (fun r => !riskLtB x r)).length =
      pool.length :=
  (List.length_eq_length_filter_add (riskLtB x)).symm

/-- A list containing two distinct elements has length at least two. -/
theorem two_le_length_of_mem_ne {α : Type} [DecidableEq α] {a b : α} {l : List α}
    (ha : a ∈ l) (hb : b ∈ l) (hab : a ≠ b) : 2 ≤ l.length := by
  have hb' : b ∈ l.erase a := (List.mem_erase_of_ne (Ne.symm hab)).mpr hb
  have h1 : 0 < (l.erase a).length := List.length_pos.mpr (List.ne_nil_of_mem hb')
  have h2 : (l.erase a).length = l.length - 1 := List.length_erase_of_mem ha
  have h3 : 0 < l.length := List.length_pos.mpr (List.ne_nil_of_mem ha)
  omega

/-- The target row of `get_risk_percentile` belongs to the date pool. -/
theorem target_mem_dateRows {t : List Row} {state district : String}
    {dateObj : Nat} {row : Row}
    (hrow : (t.filter (fun r => matchesKey state district r && r.date == dateObj)).head? =
      some row) :
    row ∈ dateRows t dateObj := by
  have hmem : row ∈ t.filter (fun r => matchesKey state district r && r.date == dateObj) :=
    List.mem_of_mem_head? (Option.mem_def.mpr hrow)
  rw [List.mem_filter] at hmem
  rw [dateRows, List.mem_filter]
  exact ⟨hmem.1, (Bool.and_eq_true _ _).mp hmem.2 |>.2⟩

/-- When the lookup of `get_risk_percentile` succeeds and the target risk is
non-null, the handler returns the rounded strictly-lower fraction. -/
theorem get_risk_percentile_found (t : List Row) (state district dateStr : String)
    (dateObj : Nat) (row : Row) (x : ℚ)
    (hdate : parseDate dateStr = Except.ok dateObj)
    (hrow : (t.filter (fun r => matchesKey state district r && r.date == dateObj)).head? =
      some row)
    (hrisk : row.service_stress_risk = some x) :
    get_risk_percentile t state district dateStr =
      Except.ok ⟨round1 (percentileRaw (dateRows t dateObj) x),
        "Riskier than " ++ fmt1 (percentileRaw (dateRows t dateObj) x) ++
          "% of districts"⟩ := by
  have hne : dateRows t dateObj ≠ [] := List.ne_nil_of_mem (target_mem_dateRows hrow)
  rw [get_risk_percentile, hdate]
  show (if (dateRows t dateObj).isEmpty then _ else _) = _
  rw [List.isEmpty_eq_false.mpr hne]
  simp only [Bool.false_eq_true, if_false, hrow, hrisk]
  rfl

/-- C1: `classify_verdict` is a pure step function of a single float:
LOW for x < 0.01, MEDIUM for 0.01 ≤ x < 0.03, HIGH for x ≥ 0.03,
including at the boundary values 0.01 and 0.03. -/
theorem c1_classify_verdict_step (x : ℚ) :
    (x < 0.01 →
      get_risk_verdict x =
        ⟨"LOW", "Minimal service stress - operations running smoothly"⟩) ∧
    (0.01 ≤ x → x < 0.03 →
      get_risk_verdict x =
        ⟨"MEDIUM", "Moderate service stress - requires monitoring"⟩) ∧
    (0.03 ≤ x →
      get_risk_verdict x =
        ⟨"HIGH", "High service stress - immediate attention needed"⟩) := by
  refine ⟨fun h => ?_, fun h1 h2 => ?_, fun h => ?_⟩
  · simp [get_risk_verdict, h]
  · simp [get_risk_verdict, not_lt.mpr h1, h2]
  · simp [get_risk_verdict, not_lt.mpr (by linarith : (0.01 : ℚ) ≤ x),
      not_lt.mpr h]

/-- C1 witness: the step function evaluated at the boundary values
0.0099, 0.01, 0.0299 and 0.03. -/
theorem c1_classify_verdict_step_witness :
    get_risk_verdict 0.0099 =
      ⟨"LOW", "Minimal service stress - operations running smoothly"⟩ ∧
    get_risk_verdict 0.01 =
      ⟨"MEDIUM", "Moderate service stress - requires monitoring"⟩ ∧
    get_risk_verdict 0.0299 =
      ⟨"MEDIUM", "Moderate service stress - requires monitoring"⟩ ∧
    get_risk_verdict 0.03 =
      ⟨"HIGH", "High service stress - immediate attention needed"⟩ :=
  ⟨(c1_classify_verdict_step 0.0099).1 (by norm_num),
   (c1_classify_verdict_step 0.01).2.1 (by norm_num) (by norm_num),
   (c1_classify_verdict_step 0.0299).2.1 (by norm_num) (by norm_num),
   (c1_classify_verdict_step 0.03).2.2 (by norm_num)⟩

/-- C2 counterexample: in `tC2tie` the queried row's risk score 0.5 is the
maximum among the 2 rows of date 7 (every row's score is ≤ 0.5), yet the
returned percentile is 0, not 100·(2−1)/2 = 50 as the claim requires. -/
theorem c2_percentile_max_counterexample :
    (tC2tie.filter (fun r => matchesKey "S" "D" r && r.date == 7)).head? =
      some ⟨some "S", some "D", 7, some 0.5, none, none, none⟩ ∧
    ((dateRows tC2tie 7).all fun r =>
      decide (r.service_stress_risk.getD 0 ≤ 0.5) &&
        !(r.service_stress_risk == none)) = true ∧
    (dateRows tC2tie 7).length = 2 ∧
    (get_risk_percentile tC2tie "S" "D" "7").map PctPayload.percentile =
      Except.ok 0 ∧
    round1 (100 * ((2 : ℚ) - 1) / 2) = 50 ∧ (0 : ℚ) ≠ 50 := by
  with_unfolding_all exact ⟨rfl, rfl, rfl, rfl, rfl, by decide⟩

/-- C2 (amended): whenever the target row is found with non-null risk score
`x`, the returned percentile is the fraction of rows sharing the date whose
risk score is strictly lower than `x`, times 100, rounded to 1 decimal; and
when the target is the unique row of the date whose risk score is not
strictly lower (i.e. its score is strictly greater than every other row's,
in particular all others non-null), that value equals 100·(N−1)/N rounded
to 1 decimal for the N rows of the date. -/
theorem c2_percentile_formula (t : List Row) (state district dateStr : String)
    (dateObj : Nat) (row : Row) (x : ℚ)
    (hdate : parseDate dateStr = Except.ok dateObj)
    (hrow : (t.filter (fun r => matchesKey state district r && r.date == dateObj)).head? =
      some row)
    (hrisk : row.service_stress_risk = some x) :
    get_risk_percentile t state district dateStr =
      Except.ok ⟨round1 (percentileRaw (dateRows t dateObj) x),
        "Riskier than " ++ fmt1 (percentileRaw (dateRows t dateObj) x) ++
          "% of districts"⟩ ∧
    (((dateRows t dateObj).filter (fun r => !riskLtB x r)).length = 1 →
      round1 (percentileRaw (dateRows t dateObj) x) =
        round1 (100 * (((dateRows t dateObj).length : ℚ) - 1) /
          ((dateRows t dateObj).length : ℚ))) := by
  refine ⟨get_risk_percentile_found t state district dateStr dateObj row x hdate hrow hrisk,
    fun hone => ?_⟩
  have hsplit := strictlyLowerCount_add_not (dateRows t dateObj) x
  rw [hone] at hsplit
  have hpos : 0 < (dateRows t dateObj).length :=
    List.length_pos.mpr (List.ne_nil_of_mem (target_mem_dateRows hrow))
  have hcast : (strictlyLowerCount (dateRows t dateObj) x : ℚ) =
      ((dateRows t dateObj).length : ℚ) - 1 := by
    have : strictlyLowerCount (dateRows t dateObj) x + 1 = (dateRows t dateObj).length :=
      hsplit
    push_cast [← this]
    ring
  rw [percentileRaw, hcast]
  ring_nf

/-- C2 witness: on the concrete table `tC2`, whose queried row holds the
strict maximum 0.5 among the 4 rows of date 7, the handler returns the
rounded strictly-lower fraction, which equals 100·(4−1)/4 rounded. -/
theorem c2_percentile_formula_witness :
    get_risk_percentile tC2 "S" "D" "7" =
      Except.ok ⟨round1 (percentileRaw (dateRows tC2 7) 0.5),
        "Riskier than " ++ fmt1 (percentileRaw (dateRows tC2 7) 0.5) ++
          "% of districts"⟩ ∧
    round1 (percentileRaw (dateRows tC2 7) 0.5) =
      round1 (100 * (((dateRows tC2 7).length : ℚ) - 1) /
        ((dateRows tC2 7).length : ℚ)) :=
  ⟨(c2_percentile_formula tC2 "S" "D" "7" 7 rowC2 0.5
      (by with_unfolding_all exact rfl) (by with_unfolding_all exact rfl) rfl).1,
   (c2_percentile_formula tC2 "S" "D" "7" 7 rowC2 0.5
      (by with_unfolding_all exact rfl) (by with_unfolding_all exact rfl) rfl).2
    (by with_unfolding_all decide)⟩

/-- C9 counterexample: in the 4001-row table `tC9` the queried row has
risk score 1, a second row of the same date has a null score, and the
remaining 3999 rows have score 0.  The returned (rounded) percentile is
exactly 100: it is not strictly below 100·(N−1)/N = 100·4000/4001, and
not strictly below 100 either, contradicting the claim. -/
theorem c9_percentile_counterexample :
    c9row none ∈ dateRows tC9 7 ∧
    (c9row none).service_stress_risk = none ∧
    (dateRows tC9 7).length = 4001 ∧
    (get_risk_percentile tC9 "S" "D" "7").map PctPayload.percentile =
      Except.ok 100 ∧
    ¬((100 : ℚ) < 100 * ((4001 : ℚ) - 1) / 4001) ∧ ¬((100 : ℚ) < 100) := by
  have hpool : dateRows tC9 7 =
      c9row (some 1) :: c9row none :: List.replicate 3999 (c9row (some 0)) := by
    rw [dateRows, tC9]
    simp only [List.filter_cons, List.filter_replicate, c9row]
    norm_num
  have hcount : strictlyLowerCount (dateRows tC9 7) 1 = 3999 := by
    rw [hpool, strictlyLowerCount, List.filter_cons, List.filter_cons,
      List.filter_replicate]
    simp only [riskLtB, c9row]
    norm_num [List.length_replicate]
  have hlen : (dateRows tC9 7).length = 4001 := by
    rw [hpool]
    simp only [List.length_cons, List.length_replicate]
  have hraw : percentileRaw (dateRows tC9 7) 1 = 399900 / 4001 := by
    rw [percentileRaw, hcount, hlen]
    norm_num
  have hround : round1 (399900 / 4001 : ℚ) = 100 := by
    rw [round1]
    have h10 : (10 : ℚ) * (399900 / 4001) = 3999000 / 4001 := by norm_num
    rw [h10]
    have h2 : roundHalfEven (3999000 / 4001) = 1000 := by with_unfolding_all decide
    rw [h2]
    norm_num
  have hfound := get_risk_percentile_found tC9 "S" "D" "7" 7 (c9row (some 1)) 1
    (by with_unfolding_all exact rfl) (by with_unfolding_all exact rfl) rfl
  refine ⟨by rw [hpool]; exact List.mem_cons_of_mem _ (List.mem_cons_self _ _),
    rfl, hlen, ?_, by norm_num, by norm_num⟩
  rw [hfound]
  show Except.ok (round1 (percentileRaw (dateRows tC9 7) 1)) = Except.ok 100
  rw [hraw, hround]

/-- C9 (amended): rows of the queried date with a null risk score are
counted in the denominator but never as strictly lower, and the target
row never counts as lower either; hence the unrounded percentile (the
value before `round(·, 1)`) is always strictly below 100, and strictly
below 100·(N−1)/N whenever some row of the date has a null score.  (The
rounded value returned by the handler can reach these bounds, as the
counterexample shows.) -/
theorem c9_percentile_null_rows (t : List Row) (state district : String)
    (dateObj : Nat) (row : Row) (x : ℚ)
    (hrow : (t.filter (fun r => matchesKey state district r && r.date == dateObj)).head? =
      some row)
    (hrisk : row.service_stress_risk = some x) :
    percentileRaw (dateRows t dateObj) x < 100 ∧
    (∀ nullRow ∈ dateRows t dateObj, nullRow.service_stress_risk = none →
      percentileRaw (dateRows t dateObj) x <
        100 * (((dateRows t dateObj).length : ℚ) - 1) /
          ((dateRows t dateObj).length : ℚ)) := by
  have hmem : row ∈ dateRows t dateObj := target_mem_dateRows hrow
  have hrowNot : riskLtB x row = false := by
    rw [riskLtB, hrisk]
    simp
  have hrowmemNot : row ∈ (dateRows t dateObj).filter (fun r => !riskLtB x r) := by
    rw [List.mem_filter, hrowNot]
    exact ⟨hmem, rfl⟩
  have hsplit := strictlyLowerCount_add_not (dateRows t dateObj) x
  have hNpos : 0 < (dateRows t dateObj).length :=
    List.length_pos.mpr (List.ne_nil_of_mem hmem)
  have hnot1 : 1 ≤ ((dateRows t dateObj).filter (fun r => !riskLtB x r)).length :=
    List.length_pos.mpr (List.ne_nil_of_mem hrowmemNot)
  have hNq : (0 : ℚ) < ((dateRows t dateObj).length : ℚ) := by exact_mod_cast hNpos
  constructor
  · have hc : strictlyLowerCount (dateRows t dateObj) x < (dateRows t dateObj).length := by
      omega
    have hcq : (strictlyLowerCount (dateRows t dateObj) x : ℚ) <
        ((dateRows t dateObj).length : ℚ) := by exact_mod_cast hc
    rw [percentileRaw, div_mul_eq_mul_div, div_lt_iff₀ hNq]
    linarith
  · intro nullRow hnullmem hnull
    have hne' : row ≠ nullRow := by
      intro h
      rw [h, hnull] at hrisk
      exact Option.noConfusion hrisk
    have hnullNot : nullRow ∈ (dateRows t dateObj).filter (fun r => !riskLtB x r) := by
      rw [List.mem_filter, riskLtB, hnull]
      exact ⟨hnullmem, rfl⟩
    have hnot2 : 2 ≤ ((dateRows t dateObj).filter (fun r => !riskLtB x r)).length :=
      two_le_length_of_mem_ne hrowmemNot hnullNot hne'
    have hc2 : strictlyLowerCount (dateRows t dateObj) x + 2 ≤ (dateRows t dateObj).length := by
      omega
    have hcq : (strictlyLowerCount (dateRows t dateObj) x : ℚ) + 2 ≤
        ((dateRows t dateObj).length : ℚ) := by exact_mod_cast hc2
    rw [percentileRaw, div_mul_eq_mul_div, div_lt_div_iff_of_pos_right hNq]
    linarith

/-- C9 witness: on the four-row table `tC9w` (target score 0.3, one null
row, two lower rows) the unrounded percentile is strictly below 100 and
strictly below 100·(4−1)/4. -/
theorem c9_percentile_null_rows_witness :
    percentileRaw (dateRows tC9w 7) (3/10) < 100 ∧
    percentileRaw (dateRows tC9w 7) (3/10) <
      100 * (((dateRows tC9w 7).length : ℚ) - 1) / ((dateRows tC9w 7).length : ℚ) :=
  ⟨(c9_percentile_null_rows tC9w "S" "D" 7 rowC9 (3/10)
      (by with_unfolding_all exact rfl) rfl).1,
   (c9_percentile_null_rows tC9w "S" "D" 7 rowC9 (3/10)
      (by with_unfolding_all exact rfl) rfl).2
     nullRowC9 (by with_unfolding_all decide) rfl⟩

/-- When risk_score exceeds 0.04 and bio_ratio exceeds 8, the block list
starts with the CRITICAL risk block followed immediately by the HIGH
bio_ratio block, whatever the child/elderly pressures fire. -/
theorem recommendationBlocks_critical_bio (risk bio c e : ℚ)
    (hrisk : risk > 0.04) (hbio : bio > 8) :
    ∃ rest, recommendationBlocks risk bio c e =
      ⟨"CRITICAL", "Emergency Service Review"⟩ ::
        ⟨"HIGH", "Infrastructure Capacity Enhancement"⟩ :: rest := by
  rw [recommendationBlocks]
  by_cases hc1 : c > 0.01 <;> by_cases he1 : e > 0.01 <;>
    by_cases hc2 : c > 0.005 <;> by_cases he2 : e > 0.005 <;>
      simp [hrisk, hbio, hc1, he1, hc2, he2]

/-- C5: for every matched row with bio_ratio = 9 and risk_score = 0.05,
the recommendation holds the CRITICAL-priority risk block (risk_score >
0.04) as its first block — ahead of every other block — immediately
followed by the HIGH-priority bio_ratio block (bio_ratio > 8). -/
theorem c5_recommendation_critical_first (t : List Row)
    (state district dateStr : String) (dateObj : Nat) (r : Row)
    (hdate : parseDate dateStr = Except.ok dateObj)
    (hrow : (t.filter (fun x => matchesKey state district x && x.date == dateObj)).head? =
      some r)
    (hbio : r.biometric_to_enrolment_ratio = some 9)
    (hrisk : r.service_stress_risk = some 0.05) :
    ∃ rest, get_policy_recommendation t state district dateStr =
      Except.ok (RecText.report (⟨"CRITICAL", "Emergency Service Review"⟩ ::
        ⟨"HIGH", "Infrastructure Capacity Enhancement"⟩ :: rest)) := by
  have hb : recBody t state district dateStr =
      Except.ok (RecText.report (recommendationBlocks 0.05 9
        (r.child_update_pressure.getD 0) (r.elderly_update_pressure.getD 0))) := by
    rw [recBody, hdate]
    simp only [bind, Except.bind, hrow, hrisk, hbio, Option.getD_some]
    rfl
  obtain ⟨rest, hrest⟩ := recommendationBlocks_critical_bio 0.05 9
    (r.child_update_pressure.getD 0) (r.elderly_update_pressure.getD 0)
    (by norm_num) (by norm_num)
  refine ⟨rest, ?_⟩
  rw [get_policy_recommendation, hb]
  exact congrArg (fun b => Except.ok (RecText.report b)) hrest

/-- C5 witness: the single-row table `tC5` with bio_ratio 9 and
risk_score 0.05. -/
theorem c5_recommendation_critical_first_witness :
    ∃ rest, get_policy_recommendation tC5 "S" "D" "7" =
      Except.ok (RecText.report (⟨"CRITICAL", "Emergency Service Review"⟩ ::
        ⟨"HIGH", "Infrastructure Capacity Enhancement"⟩ :: rest)) :=
  c5_recommendation_critical_first tC5 "S" "D" "7" 7
    ⟨some "S", some "D", 7, some 0.05, some 9, none, none⟩
    (by with_unfolding_all exact rfl) (by with_unfolding_all exact rfl) rfl rfl

/-- C6: the recommendation and explanation templaters never propagate an
internal fault as a protocol-level error: both handlers always return a
normal (`Except.ok`) payload, and when their `try` body raises, the
payload is the text describing the fault. -/
theorem c6_templaters_never_error (t : List Row) (state district dateStr : String) :
    (∃ v, get_policy_recommendation t state district dateStr = Except.ok v) ∧
    (∃ w, get_risk_explanation t state district dateStr = Except.ok w) ∧
    (∀ e, recBody t state district dateStr = Except.error e →
      get_policy_recommendation t state district dateStr =
        Except.ok (RecText.fault ("Unable to generate recommendation: " ++ e))) ∧
    (∀ e, expBody t state district dateStr = Except.error e →
      get_risk_explanation t state district dateStr =
        Except.ok (ExpText.fault ("Unable to generate explanation: " ++ e))) := by
  refine ⟨⟨_, rfl⟩, ⟨_, rfl⟩, fun e he => ?_, fun e he => ?_⟩
  · rw [get_policy_recommendation, he]
  · rw [get_risk_explanation, he]

/-- C6 witness: on an unparseable date string the templater bodies raise,
and both handlers convert the fault into a normal text payload. -/
theorem c6_templaters_never_error_witness :
    get_policy_recommendation [] "a" "b" "x" =
      Except.ok (RecText.fault
        ("Unable to generate recommendation: " ++ "could not parse date: x")) ∧
    get_risk_explanation [] "a" "b" "x" =
      Except.ok (ExpText.fault
        ("Unable to generate explanation: " ++ "could not parse date: x")) :=
  ⟨(c6_templaters_never_error [] "a" "b" "x").2.2.1 _
      (by with_unfolding_all exact rfl),
   (c6_templaters_never_error [] "a" "b" "x").2.2.2 _
      (by with_unfolding_all exact rfl)⟩

/-- C10: when at least one row matches (state, district), `get_risk_trend`
returns one entry per matching row (same length — duplicate dates each
produce their own entry), sorted ascending by date, and the entries are
exactly the (date, nullable risk score) pairs of the matching rows, nulls
passed through as nulls. -/
theorem c10_trend_per_row (t : List Row) (state district : String)
    (hne : t.filter (matchesKey state district) ≠ []) :
    ∃ l, get_risk_trend t state district = TrendResult.data l ∧
      l.length = (t.filter (matchesKey state district)).length ∧
      l.Pairwise (fun a b => a.1 ≤ b.1) ∧
      l.Perm ((t.filter (matchesKey state district)).map
        (fun r => (r.date, r.service_stress_risk))) := by
  have hperm : ((t.filter (matchesKey state district)).insertionSort dateLe).Perm
      (t.filter (matchesKey state district)) :=
    List.perm_insertionSort dateLe _
  have hnes : ((t.filter (matchesKey state district)).insertionSort dateLe).isEmpty =
      false := by
    rw [List.isEmpty_eq_false]
    intro h
    rw [h] at hperm
    exact hne hperm.symm.eq_nil
  refine ⟨((t.filter (matchesKey state district)).insertionSort dateLe).map
      (fun r => (r.date, r.service_stress_risk)), ?_, ?_, ?_, hperm.map _⟩
  · simp only [get_risk_trend, hnes, Bool.false_eq_true, if_false]
  · rw [List.length_map, hperm.length_eq]
  · exact List.Pairwise.map _ (fun a b hab => hab)
      (List.sorted_insertionSort dateLe (t.filter (matchesKey state district)))

/-- C10 witness: the table `tC10` with three matching rows — duplicate
date 7, one null score, dates out of order. -/
theorem c10_trend_per_row_witness :
    ∃ l, get_risk_trend tC10 "S" "D" = TrendResult.data l ∧
      l.length = (tC10.filter (matchesKey "S" "D")).length ∧
      l.Pairwise (fun a b => a.1 ≤ b.1) ∧
      l.Perm ((tC10.filter (matchesKey "S" "D")).map
        (fun r => (r.date, r.service_stress_risk))) :=
  c10_trend_per_row tC10 "S" "D" (by with_unfolding_all decide)

/-- Relation `optDescGe` always holds into a null key. -/
theorem optDescGe_none (a : Option ℚ) : optDescGe a none := by
  cases a <;> trivial

/-- Inserting an element selected by `p` in front of skipped elements that
`p` rejects: the filtered view gains the new element at the front. -/
theorem filter_orderedInsert_pos {α : Type} (r : α → α → Prop) [DecidableRel r]
    (p : α → Bool) (a : α) (hpa : p a = true)
    (h : ∀ b, ¬ r a b → p b = false) (l : List α) :
    (l.orderedInsert r a).filter p = a :: l.filter p := by
  induction l with
  | nil => simp [List.orderedInsert, hpa]
  | cons b l ih =>
    rw [List.orderedInsert]
    by_cases hr : r a b
    · rw [if_pos hr]
      simp [List.filter_cons, hpa]
    · rw [if_neg hr, List.filter_cons, List.filter_cons, h b hr, ih]
      simp

/-- Inserting an element rejected by `p` leaves the filtered view
unchanged. -/
theorem filter_orderedInsert_neg {α : Type} (r : α → α → Prop) [DecidableRel r]
    (p : α → Bool) (a : α) (hpa : p a = false) (l : List α) :
    (l.orderedInsert r a).filter p = l.filter p := by
  induction l with
  | nil => simp [List.orderedInsert, hpa]
  | cons b l ih =>
    rw [List.orderedInsert]
    by_cases hr : r a b
    · rw [if_pos hr]
      simp [List.filter_cons, hpa]
    · rw [if_neg hr, List.filter_cons, List.filter_cons, ih]

/-- Stability of insertion sort: when `p` selects a single sort-key class
(everything strictly above a selected element is rejected), sorting does
not change the filtered view. -/
theorem filter_insertionSort {α : Type} (r : α → α → Prop) [DecidableRel r]
    (p : α → Bool) (h : ∀ a b, p a = true → ¬ r a b → p b = false)
    (l : List α) : (l.insertionSort r).filter p = l.filter p := by
  induction l with
  | nil => rfl
  | cons a l ih =>
    rw [List.insertionSort]
    by_cases hpa : p a = true
    · rw [filter_orderedInsert_pos r p a hpa (fun b => h a b hpa), ih,
        List.filter_cons]
      simp [hpa]
    · have hpa' : p a = false := by
        revert hpa
        cases p a <;> simp
      rw [filter_orderedInsert_neg r p a hpa', ih, List.filter_cons, hpa']
      simp

/-- The null-keyed entries are exactly the entries not selected by
`isSome`. -/
theorem filter_isNone_eq {α : Type} (key : α → Option ℚ) (l : List α) :
    l.filter (fun a => (key a).isNone) = l.filter (fun a => !(key a).isSome) := by
  apply List.filter_congr
  intro a _
  cases key a <;> rfl

/-- Sorting with `sort_values(ascending=False)` permutes the input. -/
theorem sortValuesDesc_perm {α : Type} (key : α → Option ℚ) (l : List α) :
    (sortValuesDesc key l).Perm l := by
  rw [sortValuesDesc]
  have h1 : ((l.filter (fun a => (key a).isSome)).insertionSort (keyAscLe key)).reverse.Perm
      (l.filter (fun a => (key a).isSome)) :=
    (List.reverse_perm _).trans (List.perm_insertionSort _ _)
  refine (h1.append (List.Perm.refl (l.filter (fun a => (key a).isNone)))).trans ?_
  rw [filter_isNone_eq key l]
  exact List.filter_append_perm _ l

/-- Sorting with `sort_values(ascending=False)` preserves the length. -/
theorem sortValuesDesc_length {α : Type} (key : α → Option ℚ) (l : List α) :
    (sortValuesDesc key l).length = l.length :=
  (sortValuesDesc_perm key l).length_eq

/-- The output of `sort_values(ascending=False)` is sorted descending by
key, null keys last. -/
theorem sortValuesDesc_sorted {α : Type} (key : α → Option ℚ) (l : List α) :
    (sortValuesDesc key l).Pairwise (fun a b => optDescGe (key a) (key b)) := by
  rw [sortValuesDesc, List.pairwise_append]
  refine ⟨?_, ?_, ?_⟩
  · rw [List.pairwise_reverse]
    have hs := List.sorted_insertionSort (keyAscLe key)
      (l.filter (fun a => (key a).isSome))
    refine hs.imp_of_mem ?_
    intro a b ha hb hab
    have ha' : (key a).isSome = true :=
      (List.mem_filter.mp
        (((List.perm_insertionSort (keyAscLe key) _).mem_iff).mp ha)).2
    have hb' : (key b).isSome = true :=
      (List.mem_filter.mp
        (((List.perm_insertionSort (keyAscLe key) _).mem_iff).mp hb)).2
    rw [keyAscLe] at hab
    cases hka : key a with
    | none => rw [hka] at ha'; exact absurd ha' (by simp)
    | some x =>
      cases hkb : key b with
      | none => rw [hkb] at hb'; exact absurd hb' (by simp)
      | some y =>
        rw [hka, hkb] at hab
        simpa [optDescGe, hkb, hka] using hab
  · refine List.pairwise_of_forall_mem_list ?_
    intro a _ b hb
    have : (key b).isNone = true := (List.mem_filter.mp hb).2
    rw [Option.isNone_iff_eq_none] at this
    rw [this]
    exact optDescGe_none _
  · intro a _ b hb
    have : (key b).isNone = true := (List.mem_filter.mp hb).2
    rw [Option.isNone_iff_eq_none] at this
    rw [this]
    exact optDescGe_none _

/-- Anti-stability of `sort_values(ascending=False)`: within one tied
non-null key value the output lists the entries in reverse of their input
order (pandas reverses a stable ascending argsort). -/
theorem sortValuesDesc_filter_eq {α : Type} (key : α → Option ℚ) (l : List α) (v : ℚ) :
    (sortValuesDesc key l).filter (fun a => key a == some v) =
      (l.filter (fun a => key a == some v)).reverse := by
  rw [sortValuesDesc, List.filter_append, List.filter_reverse]
  have hnull : (l.filter (fun a => (key a).isNone)).filter (fun a => key a == some v) = [] := by
    rw [List.filter_eq_nil_iff]
    intro a ha
    have : (key a).isNone = true := (List.mem_filter.mp ha).2
    rw [Option.isNone_iff_eq_none] at this
    simp [this]
  have hstable : ((l.filter (fun a => (key a).isSome)).insertionSort
        (keyAscLe key)).filter (fun a => key a == some v) =
      (l.filter (fun a => (key a).isSome)).filter (fun a => key a == some v) := by
    apply filter_insertionSort
    intro a b hpa hr
    rw [keyAscLe] at hr
    have hka : key a = some v := eq_of_beq hpa
    rw [hka] at hr
    cases hkb : key b with
    | none => rfl
    | some y =>
      rw [hkb] at hr
      simp only [Option.getD_some] at hr
      have hy : y < v := lt_of_not_le hr
      rw [beq_eq_false_iff_ne]
      intro hcon
      rw [Option.some.injEq] at hcon
      exact absurd hcon (ne_of_lt hy)
  have hsub : (l.filter (fun a => (key a).isSome)).filter (fun a => key a == some v) =
      l.filter (fun a => key a == some v) := by
    rw [List.filter_filter]
    apply List.filter_congr
    intro a _
    cases key a with
    | none => rfl
    | some x => simp
  rw [hnull, hstable, hsub, List.append_nil]

/-- C4 counterexample: in `tC4tie` both districts have average risk 1 and
the grouping order is ["A", "B"], yet `top_districts(limit=3)` returns
the tie in reverse grouping order — and returns 2 entries, not 3. -/
theorem c4_top_districts_counterexample :
    districtKeys tC4tie = ["A", "B"] ∧
    groupedMeans tC4tie = [("A", some 1), ("B", some 1)] ∧
    get_top_districts tC4tie 3 = [("B", some 1), ("A", some 1)] ∧
    (get_top_districts tC4tie 3).length ≠ 3 := by
  with_unfolding_all exact ⟨rfl, rfl, rfl, by decide⟩

/-- C4 (amended): `top_districts` groups all rows by district (null keys
dropped, keys ascending), computes each group's mean risk score ignoring
nulls, sorts descending by that mean with null means last, takes the
first `limit` entries — hence min(limit, number of districts) of them,
with 10 the default limit — and rounds each average to 4 decimals; tied
averages appear in reverse of the grouping order (pandas descending
sorts reverse a stable ascending sort), and with limit = 3 exactly 3
entries are returned provided the table has at least 3 districts. -/
theorem c4_top_districts (t : List Row) (limit : Nat) :
    get_top_districts t limit =
      ((sortValuesDesc Prod.snd (groupedMeans t)).take limit).map
        (fun p => (p.1, p.2.map round4)) ∧
    get_top_districts_default t = get_top_districts t 10 ∧
    (get_top_districts t limit).length = min limit (districtKeys t).length ∧
    ((sortValuesDesc Prod.snd (groupedMeans t)).take limit).Pairwise
      (fun a b => optDescGe a.2 b.2) ∧
    (sortValuesDesc Prod.snd (groupedMeans t)).Perm (groupedMeans t) ∧
    (∀ p ∈ get_top_districts t limit,
      p.1 ∈ districtKeys t ∧
      p.2 = (meanOf Row.service_stress_risk (districtRows t p.1)).map round4) ∧
    (∀ v : ℚ, (sortValuesDesc Prod.snd (groupedMeans t)).filter
        (fun p => p.2 == some v) =
      ((groupedMeans t).filter (fun p => p.2 == some v)).reverse) ∧
    (3 ≤ (districtKeys t).length → (get_top_districts t 3).length = 3) := by
  have hlen : ∀ n, (get_top_districts t n).length = min n (districtKeys t).length := by
    intro n
    rw [get_top_districts, List.length_map, List.length_take,
      sortValuesDesc_length, groupedMeans, List.length_map]
  refine ⟨rfl, rfl, hlen limit, ?_, sortValuesDesc_perm _ _, ?_, ?_, ?_⟩
  · exact (sortValuesDesc_sorted Prod.snd (groupedMeans t)).sublist
      (List.take_sublist limit _) |>.imp (fun h => h)
  · intro p hp
    rw [get_top_districts] at hp
    obtain ⟨q, hq, hpq⟩ := List.mem_map.mp hp
    have hq' : q ∈ sortValuesDesc Prod.snd (groupedMeans t) :=
      (List.take_sublist limit _).mem hq
    have hq'' : q ∈ groupedMeans t :=
      (sortValuesDesc_perm Prod.snd (groupedMeans t)).mem_iff.mp hq'
    rw [groupedMeans] at hq''
    obtain ⟨d, hd, hdq⟩ := List.mem_map.mp hq''
    rw [← hpq, ← hdq]
    exact ⟨hd, rfl⟩
  · intro v
    exact sortValuesDesc_filter_eq Prod.snd (groupedMeans t) v
  · intro h3
    rw [hlen 3]
    omega

/-- C4 witness: `tC4w` has three districts (averages 0.1, 0.4, 0.2), so
`top_districts(limit=3)` returns exactly 3 entries. -/
theorem c4_top_districts_witness :
    (get_top_districts tC4w 3).length = 3 :=
  (c4_top_districts tC4w 3).2.2.2.2.2.2.2 (by with_unfolding_all decide)

/-- C3 counterexample: on the non-empty one-row table `tC3` whose only
district key is null, the grouping yields no rows and the handler raises
a client-class 400 ("No ranked data available"), not the server-class
error the claim requires — so HTTP 4xx is not raised only when the table
is empty. -/
theorem c3_download_counterexample :
    tC3 ≠ [] ∧
    download_ranked_data tC3 =
      Except.error (HttpError.e400 "No ranked data available") := by
  with_unfolding_all exact ⟨by decide, rfl⟩

/-- C3 (amended): `download_ranked_data` raises a client-class 400 error
if and only if the table is empty before grouping or the grouping yields
no rows (possible for a non-empty table exactly when every district key
is null, since `groupby` drops null keys); it never raises a server-class
500 in the modeled semantics (that guard covers only CSV serialization,
which cannot fail here); in all other cases it returns the CSV
attachment. -/
theorem c3_download_errors (t : List Row) :
    ((∃ d, download_ranked_data t = Except.error (HttpError.e400 d)) ↔
      (t = [] ∨ rankedRows t = [])) ∧
    (∀ d, download_ranked_data t ≠ Except.error (HttpError.e500 d)) ∧
    (t ≠ [] → rankedRows t ≠ [] →
      download_ranked_data t = Except.ok (rankedRows t)) := by
  by_cases h1 : t = []
  · subst h1
    simp only [download_ranked_data]
    simp
  · have h1' : t.isEmpty = false := List.isEmpty_eq_false.mpr h1
    by_cases h2 : rankedRows t = []
    · have h2' : (rankedRows t).isEmpty = true := by rw [h2]; rfl
      simp only [download_ranked_data, h1', h2']
      simp [h1, h2]
    · have h2' : (rankedRows t).isEmpty = false := List.isEmpty_eq_false.mpr h2
      simp only [download_ranked_data, h1', h2']
      simp [h1, h2]

/-- C3 witness: the two-district table `tC8` downloads successfully, and
the all-null-district table `tC3` yields a 400 error. -/
theorem c3_download_errors_witness :
    download_ranked_data tC8 = Except.ok (rankedRows tC8) ∧
    (∃ d, download_ranked_data tC3 = Except.error (HttpError.e400 d)) :=
  ⟨(c3_download_errors tC8).2.2 (by with_unfolding_all decide)
      (by with_unfolding_all decide),
   (c3_download_errors tC3).1.mpr (Or.inr (by with_unfolding_all exact rfl))⟩

/-- C8: whenever `download_ranked_data` produces the CSV, the file has
exactly one data row per distinct district of the table (its row count
equals the number of distinct non-null district keys, which is what
`groupby` groups on), sorted descending by average risk score with null
averages last. -/
theorem c8_download_row_count (t : List Row) (rows : List RankedRow)
    (h : download_ranked_data t = Except.ok rows) :
    rows.length = (districtKeys t).length ∧
    rows.Pairwise (fun a b =>
      optDescGe a.service_stress_risk b.service_stress_risk) := by
  have hrows : rows = rankedRows t := by
    simp only [download_ranked_data] at h
    by_cases h1 : t.isEmpty
    · rw [if_pos h1] at h
      exact absurd h (by simp)
    · rw [if_neg h1] at h
      by_cases h2 : (rankedRows t).isEmpty
      · rw [if_pos h2] at h
        exact absurd h (by simp)
      · rw [if_neg h2] at h
        exact (Except.ok.inj h).symm
  subst hrows
  refine ⟨?_, ?_⟩
  · rw [rankedRows, sortValuesDesc_length, List.length_map]
  · exact (sortValuesDesc_sorted RankedRow.service_stress_risk _).imp (fun h => h)

/-- C8 witness: the two-district table `tC8`. -/
theorem c8_download_row_count_witness :
    (rankedRows tC8).length = (districtKeys tC8).length ∧
    (rankedRows tC8).Pairwise (fun a b =>
      optDescGe a.service_stress_risk b.service_stress_risk) :=
  c8_download_row_count tC8 (rankedRows tC8) (by with_unfolding_all exact rfl)

/-- C7: the table is immutable after load and every exposed handler is
read-only: the state component of the dispatch is returned unchanged for
every request, so no record is created, mutated or deleted. -/
theorem c7_handlers_read_only (t : List Row) (req : Request) :
    (handle t req).1 = t := by
  cases req <;> rfl
